import Mathlib

/-!
Shallow embedding of the WATRS v2.0 recommendation engine
(`backend/services/recommendation.py` together with the parts of
`backend/models/place.py` it reads), and verification of the spec's
claims about it.

Modelling conventions:
* Python floats are modelled as rationals (`ℚ`); `round(x, n)` is modelled
  by `pyRound` (round-half-to-even at `n` decimal digits).
* Python dicts of monthly comfort values are association lists with
  first-match lookup (`dictGetD` models `dict.get(key, default)`).
* Python sets of strings are `Finset String`.
* `datetime.utcnow().month` is made an explicit parameter
  `now_month : Fin 12` (zero-based month index, i.e. `month - 1`).
* The weather HTTP call is an oracle `Env.live`; `_fetch_live_weather`'s
  guard clause and failure collapse (`None` on any failure) are kept.
* A successfully parsed JSON body is `WeatherData.wellFormed`; any shape
  that would raise `KeyError`/`TypeError` inside `_comfort_from_weather`
  is `WeatherData.malformed`.
-/

namespace Watrs

/-! ## Data model (`models/place.py`) -/

/-- `RoadAccessLevel` enum: how a place can be physically reached. -/
inductive RoadAccessLevel where
  | paved
  | unpaved
  | fourwd_only
  | foot_only
  | boat_only
  | off_road
deriving DecidableEq

/-- `SafetyRating` enum. -/
inductive SafetyRating where
  | low
  | moderate
  | high
deriving DecidableEq

/-- `GeoJSONPoint`: `coordinates` is `(lon, lat)`. -/
structure GeoJSONPoint where
  coordinates : ℚ × ℚ
deriving DecidableEq

/-- `SafetyMetadata` (fields read by the pipeline plus the rating). -/
structure SafetyMetadata where
  road_access : RoadAccessLevel
  safety_rating : SafetyRating
deriving DecidableEq

/-- `PlaceMetrics` (the fields the recommendation pipeline reads).
`weather_comfort_history` is the monthly-comfort dict, as an association
list with unique keys read first-match. -/
structure PlaceMetrics where
  hidden_percentile : ℚ
  weather_comfort_history : List (String × ℚ)
deriving DecidableEq

/-- `Place` document (fields the recommendation pipeline reads). -/
structure Place where
  name : String
  location : GeoJSONPoint
  watrs_tags : List String
  safety_metadata : SafetyMetadata
  metrics : PlaceMetrics
deriving DecidableEq

/-- One raw `$geoNear` result document: a place plus its computed
`dist_meters` distance field. -/
structure RawCandidate where
  place : Place
  dist_meters : ℚ
deriving DecidableEq

/-! ## Constants (`services/recommendation.py` lines 31-43) -/

def W_VIBE : ℚ := 0.4
def W_WEATHER : ℚ := 0.3
def W_HIDDEN : ℚ := 0.3

def INACCESSIBLE_ROAD : RoadAccessLevel := .boat_only
def MIN_COMFORT_SCORE : ℚ := 0.4

def MONTH_ABBR : List String :=
  ["Jan", "Feb", "Mar", "Apr", "May", "Jun",
   "Jul", "Aug", "Sep", "Oct", "Nov", "Dec"]

/-! ## Numeric helpers -/

/-- Round a rational to an integer, half to even (Python `round`'s tie
rule, idealized over exact rationals). -/
def roundHalfEven (q : ℚ) : ℤ :=
  let f := ⌊q⌋
  let r := q - f
  if r < 1 / 2 then f
  else if 1 / 2 < r then f + 1
  else if f % 2 = 0 then f else f + 1

/-- Python `round(q, ndigits)` over exact rationals. -/
def pyRound (q : ℚ) (ndigits : ℕ) : ℚ :=
  (roundHalfEven (q * 10 ^ ndigits) : ℚ) / 10 ^ ndigits

/-- Python `dict.get(key, default)` over an association list. -/
def dictGetD : List (String × ℚ) → String → ℚ → ℚ
  | [], _, dflt => dflt
  | (k, v) :: rest, key, dflt => if k = key then v else dictGetD rest key dflt

/-- `_current_month_comfort` (lines 46-49): look up the current month's
comfort from the monthly dict, default `0.5`.  The current month (already
decremented: `datetime.utcnow().month - 1`) is the explicit parameter
`now_month`. -/
def current_month_comfort (history : List (String × ℚ)) (now_month : Fin 12) : ℚ :=
  dictGetD history (MONTH_ABBR.get (Fin.cast rfl now_month)) 0.5

/-! ## Internal helpers (`services/recommendation.py` lines 87-143) -/

/-- Python `str.lower()` modelled per character. -/
def strLower (s : String) : String := ⟨s.data.map Char.toLower⟩

/-- Lower-cased tag set: `set(t.lower() for t in tags)`. -/
def lowerTagSet (tags : List String) : Finset String :=
  (tags.map strLower).toFinset

/-- `_vibe_score` (lines 87-95): Jaccard similarity between user
preference tags and place tags. -/
def vibe_score (user_tags place_tags : List String) : ℚ :=
  if user_tags = [] ∨ place_tags = [] then 0
  else
    let s_user := lowerTagSet user_tags
    let s_place := lowerTagSet place_tags
    let intersection := s_user ∩ s_place
    let union := s_user ∪ s_place
    if union ≠ ∅ then (intersection.card : ℚ) / (union.card : ℚ) else 0

/-- `_ADVERSE_CONDITIONS` (line 56), a Python set of lowercase keywords;
only membership tests are performed on it, so a list is an adequate model. -/
def ADVERSE_CONDITIONS : List String :=
  ["rain", "heavy rain", "thunderstorm", "drizzle", "torrential rain"]

/-- Python `pat in s` on strings: contiguous-substring test, over the
character lists. -/
def hasSubstring : List Char → List Char → Bool
  | [], pat => pat.isEmpty
  | c :: rest, pat => pat.isPrefixOf (c :: rest) || hasSubstring rest pat

/-- A parsed WeatherAPI `current.json` body, as far as
`_comfort_from_weather` distinguishes shapes:
* `wellFormed temp_c condition_text` — `current.temp_c` is a number and
  `current.condition.text` is a string;
* `malformed` — any shape whose field accesses or arithmetic raise
  `KeyError` or `TypeError` (missing keys, non-dict nesting, non-numeric
  `temp_c`), caught at line 114;
* `nonStringCondition temp_c` — `current.temp_c` is a number (so line 107
  succeeds) but `current.condition.text` exists and is not a string:
  `.lower()` at line 109 raises `AttributeError`, which the
  `except (KeyError, TypeError)` clause does **not** catch. -/
inductive WeatherData where
  | wellFormed (temp_c : ℚ) (condition_text : String)
  | malformed
  | nonStringCondition (temp_c : ℚ)
deriving DecidableEq

/-- `_comfort_from_weather` (lines 98-115): derive a 0-1 comfort score;
`clamp(1 - |temp_c - 22| / 28, 0, 1)`, halved on adverse conditions,
rounded to 4 decimals; `0.5` on a `KeyError`/`TypeError` shape.  On a
non-string condition text the function raises an uncaught
`AttributeError`: modelled as `none`, which the callers propagate. -/
def comfort_from_weather : WeatherData → Option ℚ
  | .wellFormed temp_c condition_text =>
      let score := max 0 (min 1 (1 - |temp_c - 22| / 28))
      let condLower := strLower condition_text
      let score :=
        if ADVERSE_CONDITIONS.any (fun adv => hasSubstring condLower.data adv.data)
        then score * 0.5 else score
      some (pyRound score 4)
  | .malformed => some 0.5
  | .nonStringCondition _ => none

/-- The request environment: the configured credential and the live
weather provider's behavior (the outcome of the HTTP call per
coordinate pair, `none` standing for any transport failure/timeout). -/
structure Env where
  WEATHERAPI_API_KEY : String
  live : ℚ → ℚ → Option WeatherData

/-- Python `not s.strip()`: the string is empty or all-whitespace. -/
def isBlank (s : String) : Bool := s.data.all (fun c => c.isWhitespace)

/-- `_fetch_live_weather` (lines 118-143): guard clause — if the API key
is missing or blank no call is attempted (`None`); otherwise the call's
outcome, with every failure mode collapsed to `None`. -/
def fetch_live_weather (env : Env) (lat lon : ℚ) : Option WeatherData :=
  if env.WEATHERAPI_API_KEY = "" ∨ isBlank env.WEATHERAPI_API_KEY then none
  else env.live lat lon

/-! ## Response models (lines 63-80) -/

/-- `ScoredPlace`: a place enriched with its score and distance. -/
structure ScoredPlace where
  place : Place
  score : ℚ
  dist_meters : ℚ
  weather_fallback : Bool
deriving DecidableEq

/-- `RecommendationResponse`: the envelope returned by the endpoint. -/
structure RecommendationResponse where
  results : List ScoredPlace
  total_candidates : ℕ
  warnings : List String
deriving DecidableEq

/-- The working dict built in phase 2 (lines 208-214): a `ScoredPlace`
plus the private `_weather_comfort` field. -/
structure ScoredEntry where
  place : Place
  score : ℚ
  dist_meters : ℚ
  weather_fallback : Bool
  weather_comfort : ℚ
deriving DecidableEq

/-- The `ScoredPlace(...)` construction of the response builder
(lines 256-264): project a working entry, dropping the private
`_weather_comfort` field. -/
def toScoredPlace (entry : ScoredEntry) : ScoredPlace :=
  { place := entry.place, score := entry.score,
    dist_meters := entry.dist_meters, weather_fallback := entry.weather_fallback }

/-! ## Phase 2: scoring engine (lines 186-218) -/

/-- One iteration of the phase-2 loop (lines 189-214): hard-filter on
road access and historical comfort, else score the candidate. -/
def phase2Entry (user_tags : List String) (now_month : Fin 12)
    (c : RawCandidate) : Option ScoredEntry :=
  if c.place.safety_metadata.road_access = INACCESSIBLE_ROAD then none
  else
    let vibe := vibe_score user_tags c.place.watrs_tags
    let weather := current_month_comfort c.place.metrics.weather_comfort_history now_month
    let hidden := c.place.metrics.hidden_percentile
    if weather < MIN_COMFORT_SCORE then none
    else some
      { place := c.place
        score := pyRound (W_VIBE * vibe + W_WEATHER * weather + W_HIDDEN * hidden) 4
        dist_meters := pyRound c.dist_meters 2
        weather_fallback := false
        weather_comfort := weather }

/-- Insert into a descending-by-score list, before the first element of
smaller-or-equal score. -/
def insertDescByScore (e : ScoredEntry) : List ScoredEntry → List ScoredEntry
  | [] => [e]
  | x :: xs => if x.score ≤ e.score then e :: x :: xs else x :: insertDescByScore e xs

/-- Stable descending sort by score, modelling Python's stable
`list.sort(key=lambda x: x.score, reverse=True)` (lines 217 and 253). -/
def sortDescByScore : List ScoredEntry → List ScoredEntry
  | [] => []
  | x :: xs => insertDescByScore x (sortDescByScore xs)

/-- Phase 2 result (lines 186-217): score every raw candidate, dropping
hard failures, then sort descending by score. -/
def scoredPhase2 (user_tags : List String) (now_month : Fin 12)
    (candidates_raw : List RawCandidate) : List ScoredEntry :=
  sortDescByScore (candidates_raw.filterMap (phase2Entry user_tags now_month))

/-! ## Phase 3: live weather validation (lines 220-253) -/

/-- Shared tail of the phase-3 loop body (lines 238-249): re-check the
hard failure with the (live or fallback) comfort, zeroing the score on
failure, else recompute the composite score with the new comfort. -/
def validateWithComfort (user_tags : List String) (comfort : ℚ)
    (entry : ScoredEntry) (warnings : List String) : ScoredEntry × List String :=
  if comfort < MIN_COMFORT_SCORE then ({ entry with score := 0 }, warnings)
  else
    ({ entry with
        score := pyRound (W_VIBE * vibe_score user_tags entry.place.watrs_tags
          + W_WEATHER * comfort + W_HIDDEN * entry.place.metrics.hidden_percentile) 4
        weather_comfort := comfort }, warnings)

/-- One iteration of the phase-3 loop (lines 222-249).  The place's
coordinates are `(lon, lat)`; the fetch takes `(lat, lon)` (line 225-227).
On fetch failure: fall back to the stored monthly history, mark
`weather_fallback`, and append the warning unless the *probe string*
`"Live weather unavailable"` is already an element of `warnings`
(lines 231-236).  When `_comfort_from_weather` raises the uncaught
`AttributeError` (non-string condition text), the exception propagates:
`none`. -/
def validateEntry (env : Env) (user_tags : List String) (now_month : Fin 12)
    (entry : ScoredEntry) (warnings : List String) :
    Option (ScoredEntry × List String) :=
  match fetch_live_weather env entry.place.location.coordinates.2
      entry.place.location.coordinates.1 with
  | some weather_data =>
      match comfort_from_weather weather_data with
      | none => none
      | some comfort => some (validateWithComfort user_tags comfort entry warnings)
  | none =>
      some (validateWithComfort user_tags
        (current_month_comfort entry.place.metrics.weather_comfort_history now_month)
        { entry with weather_fallback := true }
        (if "Live weather unavailable" ∈ warnings then warnings
         else warnings ++ ["Live weather unavailable — using historical comfort data for some results"]))

/-- The phase-3 loop over a list of entries, threading the warnings.  An
uncaught exception in one iteration aborts the loop (the code awaits the
fetches sequentially) and propagates: `none`. -/
def validateList (env : Env) (user_tags : List String) (now_month : Fin 12) :
    List ScoredEntry → List String → Option (List ScoredEntry × List String)
  | [], warnings => some ([], warnings)
  | e :: rest, warnings =>
      match validateEntry env user_tags now_month e warnings with
      | none => none
      | some step =>
          match validateList env user_tags now_month rest step.2 with
          | none => none
          | some tail => some (step.1 :: tail.1, tail.2)

/-- Phase 3 (lines 220-249): validate the top `min(5, N)` entries only;
the remainder of the list is untouched.  Warnings start empty (line 164:
no warning is produced before this loop).  An uncaught exception
propagates: `none`. -/
def phase3Scored (env : Env) (user_tags : List String) (now_month : Fin 12)
    (scored : List ScoredEntry) : Option (List ScoredEntry × List String) :=
  let top_n := min 5 scored.length
  match validateList env user_tags now_month (scored.take top_n) [] with
  | none => none
  | some validated => some (validated.1 ++ scored.drop top_n, validated.2)

/-- Lines 251-253: drop zero-scored entries, then re-sort descending
(`none` when the request was aborted by an uncaught exception). -/
def finalScored (env : Env) (user_tags : List String) (now_month : Fin 12)
    (candidates_raw : List RawCandidate) : Option (List ScoredEntry) :=
  match phase3Scored env user_tags now_month
      (scoredPhase2 user_tags now_month candidates_raw) with
  | none => none
  | some v => some (sortDescByScore (v.1.filter (fun s => decide (0 < s.score))))

/-- `get_recommendations` (lines 150-272): the full pipeline on the raw
candidate list produced by the `$geoNear` phase.  `none` models the
request aborting with an uncaught exception (no envelope is returned). -/
def get_recommendations (env : Env) (user_tags : List String) (now_month : Fin 12)
    (candidates_raw : List RawCandidate) : Option RecommendationResponse :=
  match phase3Scored env user_tags now_month
      (scoredPhase2 user_tags now_month candidates_raw) with
  | none => none
  | some v =>
      some { results := (sortDescByScore
               (v.1.filter (fun s => decide (0 < s.score)))).map toScoredPlace,
             total_candidates := candidates_raw.length,
             warnings := v.2 }

/-! ## Spec-side definition for the refinement claim on the vibe score -/

/-- Modelled from the spec's words (§4.2): Jaccard similarity between the
lower-cased user tag set and the candidate's lower-cased tag set,
`|intersection| / |union|` (in `ℚ`, division by a zero cardinal is `0`). -/
def jaccardLower (user_tags place_tags : List String) : ℚ :=
  ((lowerTagSet user_tags ∩ lowerTagSet place_tags).card : ℚ)
    / ((lowerTagSet user_tags ∪ lowerTagSet place_tags).card : ℚ)

/-! ## Concrete fixtures (used to instantiate claims on real runs) -/

/-- May is month index 4 (zero-based). -/
def monthMay : Fin 12 := ⟨4, by omega⟩

def placeA : Place :=
  { name := "Hidden Falls"
    location := { coordinates := (76, 15) }
    watrs_tags := ["nature"]
    safety_metadata := { road_access := .paved, safety_rating := .high }
    metrics := { hidden_percentile := 1 / 2, weather_comfort_history := [("May", 4 / 5)] } }

def candA : RawCandidate := { place := placeA, dist_meters := 100 }

def placeB : Place :=
  { name := "Quiet Ridge"
    location := { coordinates := (77, 15) }
    watrs_tags := ["nature"]
    safety_metadata := { road_access := .unpaved, safety_rating := .moderate }
    metrics := { hidden_percentile := 7 / 10, weather_comfort_history := [("May", 4 / 5)] } }

def candB : RawCandidate := { place := placeB, dist_meters := 200 }

def placeBoat : Place :=
  { name := "Island Cove"
    location := { coordinates := (75, 14) }
    watrs_tags := ["beach"]
    safety_metadata := { road_access := .boat_only, safety_rating := .high }
    metrics := { hidden_percentile := 9 / 10, weather_comfort_history := [("May", 4 / 5)] } }

def candBoat : RawCandidate := { place := placeBoat, dist_meters := 50 }

/-- Phase-2 entry produced for `candA` with empty user tags in May:
score `0.4·0 + 0.3·0.8 + 0.3·0.5 = 0.39`. -/
def entryA : ScoredEntry :=
  { place := placeA, score := 39 / 100, dist_meters := 100
    weather_fallback := false, weather_comfort := 4 / 5 }

/-- `entryA` after a failed live fetch (fallback marked, score unchanged). -/
def entryA2 : ScoredEntry :=
  { place := placeA, score := 39 / 100, dist_meters := 100
    weather_fallback := true, weather_comfort := 4 / 5 }

/-- Phase-2 entry produced for `candB` with empty user tags in May:
score `0.4·0 + 0.3·0.8 + 0.3·0.7 = 0.45`. -/
def entryB : ScoredEntry :=
  { place := placeB, score := 9 / 20, dist_meters := 200
    weather_fallback := false, weather_comfort := 4 / 5 }

/-- `entryB` after a failed live fetch. -/
def entryB2 : ScoredEntry :=
  { place := placeB, score := 9 / 20, dist_meters := 200
    weather_fallback := true, weather_comfort := 4 / 5 }

/-- The `ScoredPlace` projection of `entryA2`. -/
def resultA : ScoredPlace :=
  { place := placeA, score := 39 / 100, dist_meters := 100, weather_fallback := true }

/-- The warning string appended on a live-weather fallback (line 236). -/
def warnMsg : String :=
  "Live weather unavailable — using historical comfort data for some results"

/-- Blank credential, provider always fails. -/
def envBlank1 : Env := { WEATHERAPI_API_KEY := "", live := fun _ _ => none }

/-- Blank credential, provider always answers (behavior must be unobservable). -/
def envBlank2 : Env :=
  { WEATHERAPI_API_KEY := "", live := fun _ _ => some (.wellFormed 22 "Sunny") }

/-- Working credential, provider always fails (timeout/transport error). -/
def envKeyNoLive : Env := { WEATHERAPI_API_KEY := "k", live := fun _ _ => none }

/-- Working credential, provider answers with a malformed body of the
caught kind (missing keys / wrong nesting: `KeyError`/`TypeError`). -/
def envMal : Env := { WEATHERAPI_API_KEY := "k", live := fun _ _ => some .malformed }

/-- Working credential, provider answers with a body whose
`current.condition.text` exists but is not a string (e.g. `null`). -/
def envAttr : Env :=
  { WEATHERAPI_API_KEY := "k", live := fun _ _ => some (.nonStringCondition 20) }

/-- The full envelope of the one-candidate blank-key run. -/
def respA : RecommendationResponse :=
  { results := [resultA], total_candidates := 1, warnings := [warnMsg] }

/-- `entryA` re-scored with the neutral comfort `0.5` after a
successfully fetched but (caught-)malformed body:
`0.4·0 + 0.3·0.5 + 0.3·0.5 = 0.3`. -/
def entryAMal : ScoredEntry :=
  { place := placeA, score := 3 / 10, dist_meters := 100
    weather_fallback := false, weather_comfort := 0.5 }

/-! ## Helper lemmas: rounding -/

theorem floor_le_roundHalfEven (q : ℚ) : ⌊q⌋ ≤ roundHalfEven q := by
  simp only [roundHalfEven]
  split
  · exact le_refl _
  · split
    · omega
    · split
      · exact le_refl _
      · omega

theorem pyRound_nonneg {q : ℚ} (h : 0 ≤ q) (n : ℕ) : 0 ≤ pyRound q n := by
  unfold pyRound
  apply div_nonneg _ (by positivity)
  have h1 : (0 : ℤ) ≤ ⌊q * 10 ^ n⌋ := Int.floor_nonneg.mpr (by positivity)
  exact_mod_cast le_trans h1 (floor_le_roundHalfEven _)

/-! ## Helper lemmas: the stable descending sort -/

theorem mem_insertDescByScore {a e : ScoredEntry} {l : List ScoredEntry} :
    a ∈ insertDescByScore e l ↔ a = e ∨ a ∈ l := by
  induction l with
  | nil => simp [insertDescByScore]
  | cons x xs ih =>
      simp only [insertDescByScore]
      split
      · simp
      · simp only [List.mem_cons, ih]
        tauto

theorem mem_sortDescByScore {a : ScoredEntry} {l : List ScoredEntry} :
    a ∈ sortDescByScore l ↔ a ∈ l := by
  induction l with
  | nil => simp [sortDescByScore]
  | cons x xs ih =>
      simp only [sortDescByScore, mem_insertDescByScore, ih, List.mem_cons]

theorem sorted_insertDescByScore {e : ScoredEntry} {l : List ScoredEntry}
    (h : List.Pairwise (fun a b => b.score ≤ a.score) l) :
    List.Pairwise (fun a b => b.score ≤ a.score) (insertDescByScore e l) := by
  induction l with
  | nil => simp [insertDescByScore]
  | cons x xs ih =>
      rcases List.pairwise_cons.mp h with ⟨hx, hxs⟩
      simp only [insertDescByScore]
      split
      case isTrue hle =>
        refine List.pairwise_cons.mpr ⟨?_, h⟩
        intro b hb
        rcases List.mem_cons.mp hb with rfl | hb
        · exact hle
        · exact le_trans (hx b hb) hle
      case isFalse hle =>
        refine List.pairwise_cons.mpr ⟨?_, ih hxs⟩
        intro b hb
        rcases mem_insertDescByScore.mp hb with rfl | hb
        · exact le_of_not_le hle
        · exact hx b hb

theorem sorted_sortDescByScore (l : List ScoredEntry) :
    List.Pairwise (fun a b => b.score ≤ a.score) (sortDescByScore l) := by
  induction l with
  | nil => simp [sortDescByScore]
  | cons x xs ih => exact sorted_insertDescByScore ih

/-! ## Helper lemmas: phase 2 -/

theorem phase2Entry_eq_some {user_tags : List String} {now_month : Fin 12}
    {c : RawCandidate} {e : ScoredEntry}
    (h : phase2Entry user_tags now_month c = some e) :
    e.place = c.place ∧
    e.weather_fallback = false ∧
    e.weather_comfort = current_month_comfort c.place.metrics.weather_comfort_history now_month ∧
    MIN_COMFORT_SCORE ≤ e.weather_comfort ∧
    e.dist_meters = pyRound c.dist_meters 2 ∧
    c.place.safety_metadata.road_access ≠ INACCESSIBLE_ROAD ∧
    e.score = pyRound (W_VIBE * vibe_score user_tags c.place.watrs_tags
      + W_WEATHER * e.weather_comfort + W_HIDDEN * c.place.metrics.hidden_percentile) 4 := by
  simp only [phase2Entry] at h
  split at h
  · simp at h
  · split at h
    · simp at h
    · case _ hroad hweather =>
        cases h
        exact ⟨rfl, rfl, rfl, le_of_not_lt hweather, rfl, hroad, rfl⟩

theorem mem_scoredPhase2 {user_tags : List String} {now_month : Fin 12}
    {candidates_raw : List RawCandidate} {e : ScoredEntry}
    (h : e ∈ scoredPhase2 user_tags now_month candidates_raw) :
    ∃ c ∈ candidates_raw, phase2Entry user_tags now_month c = some e := by
  unfold scoredPhase2 at h
  exact List.mem_filterMap.mp (mem_sortDescByScore.mp h)

/-! ## Helper lemmas: phase 3 -/

theorem validateWithComfort_fst_frame (user_tags : List String) (comfort : ℚ)
    (entry : ScoredEntry) (warnings : List String) :
    (validateWithComfort user_tags comfort entry warnings).1.place = entry.place ∧
    (validateWithComfort user_tags comfort entry warnings).1.dist_meters = entry.dist_meters ∧
    (validateWithComfort user_tags comfort entry warnings).1.weather_fallback
      = entry.weather_fallback := by
  simp only [validateWithComfort]
  split <;> exact ⟨rfl, rfl, rfl⟩

theorem validateWithComfort_fst_comfort {user_tags : List String} {comfort : ℚ}
    {entry : ScoredEntry} {warnings : List String}
    (h : 0 < (validateWithComfort user_tags comfort entry warnings).1.score) :
    MIN_COMFORT_SCORE ≤ (validateWithComfort user_tags comfort entry warnings).1.weather_comfort := by
  by_cases hc : comfort < MIN_COMFORT_SCORE
  · simp [validateWithComfort, hc] at h
  · simp only [validateWithComfort, if_neg hc]
    exact le_of_not_lt hc

/-- A failed fetch always takes the fallback branch and cannot raise. -/
theorem validateEntry_of_fetch_none {env : Env} {user_tags : List String}
    {now_month : Fin 12} {entry : ScoredEntry} {warnings : List String}
    (hf : fetch_live_weather env entry.place.location.coordinates.2
      entry.place.location.coordinates.1 = none) :
    validateEntry env user_tags now_month entry warnings
      = some (validateWithComfort user_tags
          (current_month_comfort entry.place.metrics.weather_comfort_history now_month)
          { entry with weather_fallback := true }
          (if "Live weather unavailable" ∈ warnings then warnings
           else warnings ++
             ["Live weather unavailable — using historical comfort data for some results"])) := by
  simp only [validateEntry, hf]

theorem validateEntry_some_frame {env : Env} {user_tags : List String} {now_month : Fin 12}
    {entry : ScoredEntry} {warnings : List String} {r : ScoredEntry × List String}
    (h : validateEntry env user_tags now_month entry warnings = some r) :
    r.1.place = entry.place ∧ r.1.dist_meters = entry.dist_meters := by
  cases hf : fetch_live_weather env entry.place.location.coordinates.2
      entry.place.location.coordinates.1 with
  | none =>
      rw [validateEntry_of_fetch_none hf, Option.some.injEq] at h
      rw [← h]
      exact ⟨(validateWithComfort_fst_frame _ _ _ _).1,
        (validateWithComfort_fst_frame _ _ _ _).2.1⟩
  | some wd =>
      simp only [validateEntry, hf] at h
      cases hc : comfort_from_weather wd with
      | none => simp [hc] at h
      | some comfort =>
          simp only [hc, Option.some.injEq] at h
          rw [← h]
          exact ⟨(validateWithComfort_fst_frame _ _ _ _).1,
            (validateWithComfort_fst_frame _ _ _ _).2.1⟩

theorem validateEntry_some_comfort {env : Env} {user_tags : List String} {now_month : Fin 12}
    {entry : ScoredEntry} {warnings : List String} {r : ScoredEntry × List String}
    (h : validateEntry env user_tags now_month entry warnings = some r)
    (hpos : 0 < r.1.score) :
    MIN_COMFORT_SCORE ≤ r.1.weather_comfort := by
  cases hf : fetch_live_weather env entry.place.location.coordinates.2
      entry.place.location.coordinates.1 with
  | none =>
      rw [validateEntry_of_fetch_none hf, Option.some.injEq] at h
      rw [← h] at hpos ⊢
      exact validateWithComfort_fst_comfort hpos
  | some wd =>
      simp only [validateEntry, hf] at h
      cases hc : comfort_from_weather wd with
      | none => simp [hc] at h
      | some comfort =>
          simp only [hc, Option.some.injEq] at h
          rw [← h] at hpos ⊢
          exact validateWithComfort_fst_comfort hpos

theorem validateEntry_some_fallback_of_none {env : Env} {user_tags : List String}
    {now_month : Fin 12} {entry : ScoredEntry} {warnings : List String}
    {r : ScoredEntry × List String}
    (hf : fetch_live_weather env entry.place.location.coordinates.2
      entry.place.location.coordinates.1 = none)
    (h : validateEntry env user_tags now_month entry warnings = some r) :
    r.1.weather_fallback = true := by
  rw [validateEntry_of_fetch_none hf, Option.some.injEq] at h
  rw [← h]
  simpa using (validateWithComfort_fst_frame _ _ _ _).2.2

theorem validateList_some_length {env : Env} {user_tags : List String} {now_month : Fin 12}
    {l : List ScoredEntry} {warnings : List String} {v : List ScoredEntry × List String}
    (h : validateList env user_tags now_month l warnings = some v) :
    v.1.length = l.length := by
  induction l generalizing warnings v with
  | nil =>
      simp only [validateList, Option.some.injEq] at h
      rw [← h]
  | cons e rest ih =>
      simp only [validateList] at h
      cases hs : validateEntry env user_tags now_month e warnings with
      | none => simp [hs] at h
      | some step =>
          simp only [hs] at h
          cases ht : validateList env user_tags now_month rest step.2 with
          | none => simp [ht] at h
          | some tail =>
              simp only [ht, Option.some.injEq] at h
              rw [← h]
              simp [ih ht]

theorem mem_validateList_some {env : Env} {user_tags : List String} {now_month : Fin 12}
    {l : List ScoredEntry} {warnings : List String} {v : List ScoredEntry × List String}
    {x : ScoredEntry}
    (h : validateList env user_tags now_month l warnings = some v) (hx : x ∈ v.1) :
    ∃ e ∈ l, ∃ w r, validateEntry env user_tags now_month e w = some r ∧ x = r.1 := by
  induction l generalizing warnings v with
  | nil =>
      simp only [validateList, Option.some.injEq] at h
      rw [← h] at hx
      simp at hx
  | cons e rest ih =>
      simp only [validateList] at h
      cases hs : validateEntry env user_tags now_month e warnings with
      | none => simp [hs] at h
      | some step =>
          simp only [hs] at h
          cases ht : validateList env user_tags now_month rest step.2 with
          | none => simp [ht] at h
          | some tail =>
              simp only [ht, Option.some.injEq] at h
              rw [← h] at hx
              rcases List.mem_cons.mp hx with rfl | hx
              · exact ⟨e, List.mem_cons_self e rest, warnings, step, hs, rfl⟩
              · rcases ih ht hx with ⟨e', he', w', r', hr', hx'⟩
                exact ⟨e', List.mem_cons_of_mem e he', w', r', hr', hx'⟩

/-- When every single validation step succeeds, the whole loop does. -/
theorem validateList_isSome {env : Env} {user_tags : List String} {now_month : Fin 12}
    (hve : ∀ e w, ∃ r, validateEntry env user_tags now_month e w = some r) :
    ∀ l w, ∃ v, validateList env user_tags now_month l w = some v := by
  intro l
  induction l with
  | nil => exact fun w => ⟨([], w), rfl⟩
  | cons e rest ih =>
      intro w
      obtain ⟨r, hr⟩ := hve e w
      obtain ⟨v, hv⟩ := ih r.2
      refine ⟨(r.1 :: v.1, v.2), ?_⟩
      simp only [validateList, hr, hv]

theorem phase3Scored_eq_some {env : Env} {user_tags : List String} {now_month : Fin 12}
    {scored : List ScoredEntry} {p : List ScoredEntry × List String}
    (h : phase3Scored env user_tags now_month scored = some p) :
    ∃ v, validateList env user_tags now_month
        (scored.take (min 5 scored.length)) [] = some v ∧
      p = (v.1 ++ scored.drop (min 5 scored.length), v.2) := by
  simp only [phase3Scored] at h
  cases hv : validateList env user_tags now_month
      (scored.take (min 5 scored.length)) [] with
  | none => simp [hv] at h
  | some v =>
      simp only [hv, Option.some.injEq] at h
      exact ⟨v, rfl, h.symm⟩

/-- Unpacking a returned envelope: the phase-3 result it was built from,
the final scored list, and the envelope's fields. -/
theorem get_recommendations_eq_some {env : Env} {user_tags : List String}
    {now_month : Fin 12} {candidates_raw : List RawCandidate}
    {resp : RecommendationResponse}
    (h : get_recommendations env user_tags now_month candidates_raw = some resp) :
    ∃ v, phase3Scored env user_tags now_month
        (scoredPhase2 user_tags now_month candidates_raw) = some v ∧
      finalScored env user_tags now_month candidates_raw
        = some (sortDescByScore (v.1.filter (fun s => decide (0 < s.score)))) ∧
      resp = { results := (sortDescByScore
                 (v.1.filter (fun s => decide (0 < s.score)))).map toScoredPlace,
               total_candidates := candidates_raw.length,
               warnings := v.2 } := by
  simp only [get_recommendations] at h
  cases hp : phase3Scored env user_tags now_month
      (scoredPhase2 user_tags now_month candidates_raw) with
  | none => simp [hp] at h
  | some v =>
      simp only [hp, Option.some.injEq] at h
      refine ⟨v, rfl, ?_, h.symm⟩
      simp only [finalScored, hp]

/-- Every entry surviving to the final re-sorted list has positive score
and descends from a phase-2 entry, either untouched (outside the top-K)
or through one successful phase-3 validation step. -/
theorem mem_finalScored {env : Env} {user_tags : List String} {now_month : Fin 12}
    {candidates_raw : List RawCandidate} {l : List ScoredEntry} {e : ScoredEntry}
    (h : finalScored env user_tags now_month candidates_raw = some l)
    (he : e ∈ l) :
    0 < e.score ∧
    ∃ e₀ ∈ scoredPhase2 user_tags now_month candidates_raw,
      (e = e₀ ∨ ∃ w r, validateEntry env user_tags now_month e₀ w = some r ∧ e = r.1) := by
  simp only [finalScored] at h
  cases hp : phase3Scored env user_tags now_month
      (scoredPhase2 user_tags now_month candidates_raw) with
  | none => simp [hp] at h
  | some v =>
      simp only [hp, Option.some.injEq] at h
      rw [← h] at he
      have hmem := List.mem_filter.mp (mem_sortDescByScore.mp he)
      have hpos : 0 < e.score := of_decide_eq_true hmem.2
      refine ⟨hpos, ?_⟩
      rcases phase3Scored_eq_some hp with ⟨w, hw, rfl⟩
      rcases List.mem_append.mp hmem.1 with hleft | hright
      · rcases mem_validateList_some hw hleft with ⟨e₀, he₀, w2, r, hr, hx⟩
        exact ⟨e₀, List.mem_of_mem_take he₀, Or.inr ⟨w2, r, hr, hx⟩⟩
      · exact ⟨e, List.mem_of_mem_drop hright, Or.inl rfl⟩

/-! ## Evaluation lemmas on the concrete fixtures -/

theorem roundHalfEven_intCast (m : ℤ) : roundHalfEven (m : ℚ) = m := by
  simp only [roundHalfEven, Int.floor_intCast]
  norm_num

theorem pyRound_of_mul_eq {q : ℚ} {n : ℕ} {m : ℤ} (h : q * 10 ^ n = (m : ℚ)) :
    pyRound q n = (m : ℚ) / 10 ^ n := by
  unfold pyRound
  rw [h, roundHalfEven_intCast]

theorem phase2_candA : phase2Entry [] monthMay candA = some entryA := by
  have hw : current_month_comfort placeA.metrics.weather_comfort_history monthMay
      = 4 / 5 := rfl
  have hv : vibe_score [] placeA.watrs_tags = 0 := by
    simp [vibe_score]
  have hge : ¬ ((4 : ℚ) / 5 < MIN_COMFORT_SCORE) := by
    norm_num [MIN_COMFORT_SCORE]
  have hs : pyRound (W_VIBE * 0 + W_WEATHER * (4 / 5)
      + W_HIDDEN * placeA.metrics.hidden_percentile) 4 = 39 / 100 := by
    have h : (W_VIBE * 0 + W_WEATHER * (4 / 5)
        + W_HIDDEN * placeA.metrics.hidden_percentile) * 10 ^ 4 = ((3900 : ℤ) : ℚ) := by
      norm_num [W_VIBE, W_WEATHER, W_HIDDEN, placeA]
    rw [pyRound_of_mul_eq h]
    norm_num
  have hd : pyRound (100 : ℚ) 2 = 100 := by
    have h : (100 : ℚ) * 10 ^ 2 = ((10000 : ℤ) : ℚ) := by norm_num
    rw [pyRound_of_mul_eq h]
    norm_num
  simp only [phase2Entry, candA]
  rw [if_neg (show ¬ (placeA.safety_metadata.road_access = INACCESSIBLE_ROAD) by decide)]
  rw [hw, hv, if_neg hge, hs, hd]
  rfl

theorem phase2_candB : phase2Entry [] monthMay candB = some entryB := by
  have hw : current_month_comfort placeB.metrics.weather_comfort_history monthMay
      = 4 / 5 := rfl
  have hv : vibe_score [] placeB.watrs_tags = 0 := by
    simp [vibe_score]
  have hge : ¬ ((4 : ℚ) / 5 < MIN_COMFORT_SCORE) := by
    norm_num [MIN_COMFORT_SCORE]
  have hs : pyRound (W_VIBE * 0 + W_WEATHER * (4 / 5)
      + W_HIDDEN * placeB.metrics.hidden_percentile) 4 = 9 / 20 := by
    have h : (W_VIBE * 0 + W_WEATHER * (4 / 5)
        + W_HIDDEN * placeB.metrics.hidden_percentile) * 10 ^ 4 = ((4500 : ℤ) : ℚ) := by
      norm_num [W_VIBE, W_WEATHER, W_HIDDEN, placeB]
    rw [pyRound_of_mul_eq h]
    norm_num
  have hd : pyRound (200 : ℚ) 2 = 200 := by
    have h : (200 : ℚ) * 10 ^ 2 = ((20000 : ℤ) : ℚ) := by norm_num
    rw [pyRound_of_mul_eq h]
    norm_num
  simp only [phase2Entry, candB]
  rw [if_neg (show ¬ (placeB.safety_metadata.road_access = INACCESSIBLE_ROAD) by decide)]
  rw [hw, hv, if_neg hge, hs, hd]
  rfl

theorem s2A : scoredPhase2 [] monthMay [candA] = [entryA] := by
  simp only [scoredPhase2, List.filterMap_cons, phase2_candA, List.filterMap_nil]
  rfl

theorem s2B : scoredPhase2 [] monthMay [candA, candB] = [entryB, entryA] := by
  simp only [scoredPhase2, List.filterMap_cons, phase2_candA, phase2_candB,
    List.filterMap_nil]
  simp only [sortDescByScore, insertDescByScore]
  rw [if_neg (show ¬ (entryB.score ≤ entryA.score) by norm_num [entryA, entryB])]

theorem validateEntry_A : validateEntry envBlank1 [] monthMay entryA []
    = some (entryA2, [warnMsg]) := by
  have hf : fetch_live_weather envBlank1 entryA.place.location.coordinates.2
      entryA.place.location.coordinates.1 = none := by decide
  have hw : current_month_comfort entryA.place.metrics.weather_comfort_history monthMay
      = 4 / 5 := rfl
  have hge : ¬ ((4 : ℚ) / 5 < MIN_COMFORT_SCORE) := by
    norm_num [MIN_COMFORT_SCORE]
  have hs : pyRound (W_VIBE * vibe_score [] entryA.place.watrs_tags
      + W_WEATHER * (4 / 5) + W_HIDDEN * entryA.place.metrics.hidden_percentile) 4
      = 39 / 100 := by
    have hv : vibe_score [] entryA.place.watrs_tags = 0 := by
      simp [vibe_score]
    have h : (W_VIBE * vibe_score [] entryA.place.watrs_tags
        + W_WEATHER * (4 / 5) + W_HIDDEN * entryA.place.metrics.hidden_percentile) * 10 ^ 4
        = ((3900 : ℤ) : ℚ) := by
      rw [hv]
      norm_num [W_VIBE, W_WEATHER, W_HIDDEN, entryA, placeA]
    rw [pyRound_of_mul_eq h]
    norm_num
  simp only [validateEntry, hf, hw, validateWithComfort]
  rw [if_neg hge, hs]
  rfl

theorem validateList_A : validateList envBlank1 [] monthMay [entryA] []
    = some ([entryA2], [warnMsg]) := by
  simp only [validateList, validateEntry_A]

theorem phase3Scored_A : phase3Scored envBlank1 [] monthMay [entryA]
    = some ([entryA2], [warnMsg]) := by
  simp only [phase3Scored]
  rw [show List.length [entryA] = 1 from rfl, min_eq_right (show 1 ≤ 5 by norm_num)]
  rw [show List.take 1 [entryA] = [entryA] from rfl]
  rw [validateList_A]
  rfl

theorem finalScored_A : finalScored envBlank1 [] monthMay [candA] = some [entryA2] := by
  have hfil : List.filter (fun s => decide (0 < s.score)) [entryA2] = [entryA2] := by
    simp only [List.filter_cons, List.filter_nil]
    rw [if_pos (decide_eq_true (show (0 : ℚ) < entryA2.score by norm_num [entryA2]))]
  simp only [finalScored, s2A, phase3Scored_A]
  rw [hfil]
  rfl

theorem get_recommendations_A : get_recommendations envBlank1 [] monthMay [candA]
    = some respA := by
  have hfil : List.filter (fun s => decide (0 < s.score)) [entryA2] = [entryA2] := by
    simp only [List.filter_cons, List.filter_nil]
    rw [if_pos (decide_eq_true (show (0 : ℚ) < entryA2.score by norm_num [entryA2]))]
  simp only [get_recommendations, s2A, phase3Scored_A]
  rw [hfil]
  rfl

theorem validateEntry_B1 : validateEntry envKeyNoLive [] monthMay entryB []
    = some (entryB2, [warnMsg]) := by
  have hf : fetch_live_weather envKeyNoLive entryB.place.location.coordinates.2
      entryB.place.location.coordinates.1 = none := by decide
  have hw : current_month_comfort entryB.place.metrics.weather_comfort_history monthMay
      = 4 / 5 := rfl
  have hge : ¬ ((4 : ℚ) / 5 < MIN_COMFORT_SCORE) := by
    norm_num [MIN_COMFORT_SCORE]
  have hs : pyRound (W_VIBE * vibe_score [] entryB.place.watrs_tags
      + W_WEATHER * (4 / 5) + W_HIDDEN * entryB.place.metrics.hidden_percentile) 4
      = 9 / 20 := by
    have hv : vibe_score [] entryB.place.watrs_tags = 0 := by
      simp [vibe_score]
    have h : (W_VIBE * vibe_score [] entryB.place.watrs_tags
        + W_WEATHER * (4 / 5) + W_HIDDEN * entryB.place.metrics.hidden_percentile) * 10 ^ 4
        = ((4500 : ℤ) : ℚ) := by
      rw [hv]
      norm_num [W_VIBE, W_WEATHER, W_HIDDEN, entryB, placeB]
    rw [pyRound_of_mul_eq h]
    norm_num
  simp only [validateEntry, hf, hw, validateWithComfort]
  rw [if_neg hge, hs]
  rfl

theorem validateEntry_B2 : validateEntry envKeyNoLive [] monthMay entryA [warnMsg]
    = some (entryA2, [warnMsg, warnMsg]) := by
  have hf : fetch_live_weather envKeyNoLive entryA.place.location.coordinates.2
      entryA.place.location.coordinates.1 = none := by decide
  have hw : current_month_comfort entryA.place.metrics.weather_comfort_history monthMay
      = 4 / 5 := rfl
  have hge : ¬ ((4 : ℚ) / 5 < MIN_COMFORT_SCORE) := by
    norm_num [MIN_COMFORT_SCORE]
  have hs : pyRound (W_VIBE * vibe_score [] entryA.place.watrs_tags
      + W_WEATHER * (4 / 5) + W_HIDDEN * entryA.place.metrics.hidden_percentile) 4
      = 39 / 100 := by
    have hv : vibe_score [] entryA.place.watrs_tags = 0 := by
      simp [vibe_score]
    have h : (W_VIBE * vibe_score [] entryA.place.watrs_tags
        + W_WEATHER * (4 / 5) + W_HIDDEN * entryA.place.metrics.hidden_percentile) * 10 ^ 4
        = ((3900 : ℤ) : ℚ) := by
      rw [hv]
      norm_num [W_VIBE, W_WEATHER, W_HIDDEN, entryA, placeA]
    rw [pyRound_of_mul_eq h]
    norm_num
  simp only [validateEntry, hf, hw, validateWithComfort]
  rw [if_neg hge, hs]
  rfl

theorem validateList_B : validateList envKeyNoLive [] monthMay [entryB, entryA] []
    = some ([entryB2, entryA2], [warnMsg, warnMsg]) := by
  simp only [validateList, validateEntry_B1, validateEntry_B2]

theorem validateEntry_Mal : validateEntry envMal [] monthMay entryA []
    = some (entryAMal, []) := by
  have hf : fetch_live_weather envMal entryA.place.location.coordinates.2
      entryA.place.location.coordinates.1 = some WeatherData.malformed := by decide
  have hge : ¬ ((0.5 : ℚ) < MIN_COMFORT_SCORE) := by
    norm_num [MIN_COMFORT_SCORE]
  have hs : pyRound (W_VIBE * vibe_score [] entryA.place.watrs_tags
      + W_WEATHER * (0.5 : ℚ) + W_HIDDEN * entryA.place.metrics.hidden_percentile) 4
      = 3 / 10 := by
    have hv : vibe_score [] entryA.place.watrs_tags = 0 := by
      simp [vibe_score]
    have h : (W_VIBE * vibe_score [] entryA.place.watrs_tags
        + W_WEATHER * (0.5 : ℚ) + W_HIDDEN * entryA.place.metrics.hidden_percentile) * 10 ^ 4
        = ((3000 : ℤ) : ℚ) := by
      rw [hv]
      norm_num [W_VIBE, W_WEATHER, W_HIDDEN, entryA, placeA]
    rw [pyRound_of_mul_eq h]
    norm_num
  simp only [validateEntry, hf, comfort_from_weather, validateWithComfort]
  rw [if_neg hge, hs]
  rfl

theorem validateList_Mal : validateList envMal [] monthMay [entryA] []
    = some ([entryAMal], []) := by
  simp only [validateList, validateEntry_Mal]

theorem phase3Scored_Mal : phase3Scored envMal [] monthMay [entryA]
    = some ([entryAMal], []) := by
  simp only [phase3Scored]
  rw [show List.length [entryA] = 1 from rfl, min_eq_right (show 1 ≤ 5 by norm_num)]
  rw [show List.take 1 [entryA] = [entryA] from rfl]
  rw [validateList_Mal]
  rfl

theorem validateEntry_Attr : validateEntry envAttr [] monthMay entryA [] = none := by
  have hf : fetch_live_weather envAttr entryA.place.location.coordinates.2
      entryA.place.location.coordinates.1
      = some (WeatherData.nonStringCondition 20) := by decide
  simp only [validateEntry, hf, comfort_from_weather]

theorem validateList_Attr : validateList envAttr [] monthMay [entryA] [] = none := by
  simp only [validateList, validateEntry_Attr]

theorem phase3Scored_Attr : phase3Scored envAttr [] monthMay [entryA] = none := by
  simp only [phase3Scored]
  rw [show List.length [entryA] = 1 from rfl, min_eq_right (show 1 ≤ 5 by norm_num)]
  rw [show List.take 1 [entryA] = [entryA] from rfl]
  rw [validateList_Attr]

/-! ## Claims -/

/-- C1 (code bug at lines 235-236): the dedup guard tests whether the
probe string `"Live weather unavailable"` is an *element* of `warnings`,
but the string actually appended is the longer fallback message, so the
guard never fires: with two top-K candidates both falling back, the
returned envelope carries the warning twice, not once. -/
theorem duplicate_live_weather_warnings :
    Option.map RecommendationResponse.warnings
      (get_recommendations envKeyNoLive [] monthMay [candA, candB])
      = some [warnMsg, warnMsg] := by
  have hphase : phase3Scored envKeyNoLive [] monthMay [entryB, entryA]
      = some ([entryB2, entryA2], [warnMsg, warnMsg]) := by
    simp only [phase3Scored]
    rw [show List.length [entryB, entryA] = 2 from rfl,
      min_eq_right (show 2 ≤ 5 by norm_num)]
    rw [show List.take 2 [entryB, entryA] = [entryB, entryA] from rfl]
    rw [validateList_B]
    rfl
  simp only [get_recommendations, s2B, hphase]
  rfl

/-- C2: for every request that returns an envelope (with the geospatial
collaborator reporting nonnegative distances, per its contract), the
results are sorted descending by score — no adjacent pair increases —
and every entry has `score ≥ 0` and `dist_meters ≥ 0`. -/
theorem results_sorted_desc_and_nonneg (env : Env) (user_tags : List String)
    (now_month : Fin 12) (candidates_raw : List RawCandidate)
    (resp : RecommendationResponse)
    (hok : get_recommendations env user_tags now_month candidates_raw = some resp)
    (hdist : ∀ c ∈ candidates_raw, 0 ≤ c.dist_meters) :
    List.Pairwise (fun a b => b.score ≤ a.score) resp.results ∧
    ∀ r ∈ resp.results, 0 ≤ r.score ∧ 0 ≤ r.dist_meters := by
  rcases get_recommendations_eq_some hok with ⟨v, hph, hfin, rfl⟩
  constructor
  · exact List.Pairwise.map _ (fun a b h => h) (sorted_sortDescByScore _)
  · intro r hr
    simp only [List.mem_map] at hr
    rcases hr with ⟨e, he, rfl⟩
    rcases mem_finalScored hfin he with ⟨hpos, e₀, he₀, hcase⟩
    have hdist₀ : 0 ≤ e₀.dist_meters := by
      rcases mem_scoredPhase2 he₀ with ⟨c, hc, h2⟩
      rcases phase2Entry_eq_some h2 with ⟨-, -, -, -, hd, -, -⟩
      rw [hd]
      exact pyRound_nonneg (hdist c hc) 2
    refine ⟨le_of_lt hpos, ?_⟩
    show 0 ≤ e.dist_meters
    rcases hcase with rfl | ⟨w, r2, hr2, rfl⟩
    · exact hdist₀
    · rw [(validateEntry_some_frame hr2).2]
      exact hdist₀

/-- C3: no candidate whose final weather comfort (historical for
never-validated candidates, live/fallback for validated ones — the
`_weather_comfort` working field) is below `MIN_COMFORT_SCORE = 0.4`
survives to the final result list: it is hard-filtered in phase 2 or
zeroed in phase 3 and dropped before the final sort. -/
theorem low_comfort_never_in_results (env : Env) (user_tags : List String)
    (now_month : Fin 12) (candidates_raw : List RawCandidate)
    (l : List ScoredEntry)
    (hok : finalScored env user_tags now_month candidates_raw = some l) :
    ∀ e ∈ l, MIN_COMFORT_SCORE ≤ e.weather_comfort := by
  intro e he
  rcases mem_finalScored hok he with ⟨hpos, e₀, he₀, hcase⟩
  rcases hcase with rfl | ⟨w, r, hr, rfl⟩
  · rcases mem_scoredPhase2 he₀ with ⟨c, _, h2⟩
    exact (phase2Entry_eq_some h2).2.2.2.1
  · exact validateEntry_some_comfort hr hpos

/-- C4: exactly `min 5 N` of the `N` phase-2 survivors (the list's head
segment, i.e. the highest-scoring ones) pass through live validation,
and every entry beyond the top 5 is carried into the phase-3 list
literally unchanged (same score, same `dist_meters`), with
`weather_fallback = false` as built in phase 2. -/
theorem topK_validation_frame (env : Env) (user_tags : List String)
    (now_month : Fin 12) (candidates_raw : List RawCandidate) :
    (∀ v, validateList env user_tags now_month
        ((scoredPhase2 user_tags now_month candidates_raw).take
          (min 5 (scoredPhase2 user_tags now_month candidates_raw).length)) [] = some v →
      v.1.length = min 5 (scoredPhase2 user_tags now_month candidates_raw).length) ∧
    (∀ p, phase3Scored env user_tags now_month
        (scoredPhase2 user_tags now_month candidates_raw) = some p →
      p.1.drop 5 = (scoredPhase2 user_tags now_month candidates_raw).drop 5) ∧
    ∀ e ∈ scoredPhase2 user_tags now_month candidates_raw,
      e.weather_fallback = false := by
  refine ⟨?_, ?_, ?_⟩
  · intro v hv
    rw [validateList_some_length hv, List.length_take]
    omega
  · generalize scoredPhase2 user_tags now_month candidates_raw = s2
    intro p hp
    rcases phase3Scored_eq_some hp with ⟨v, hv, rfl⟩
    have hvlen : v.1.length = min 5 s2.length := by
      rw [validateList_some_length hv, List.length_take]
      omega
    rcases le_or_lt 5 s2.length with h5 | h5
    · have hmin : min 5 s2.length = 5 := min_eq_left h5
      rw [hmin] at hvlen ⊢
      calc (v.1 ++ s2.drop 5).drop 5
          = (v.1 ++ s2.drop 5).drop v.1.length := by rw [hvlen]
        _ = s2.drop 5 := List.drop_left _ _
    · have hdrop : s2.drop 5 = [] := List.drop_eq_nil_of_le (by omega)
      have hdrop2 : s2.drop (min 5 s2.length) = [] :=
        List.drop_eq_nil_of_le (by omega)
      rw [hdrop, hdrop2, List.append_nil]
      apply List.drop_eq_nil_of_le
      rw [hvlen]
      omega
  · intro e he
    rcases mem_scoredPhase2 he with ⟨c, _, h2⟩
    exact (phase2Entry_eq_some h2).2.1

/-- C5: `total_candidates` in every returned envelope equals the raw
pre-filter candidate count from the geospatial fetch; when every
candidate is hard-filtered (e.g. all `boat_only`), an envelope is
returned reporting that count alongside an empty `results` list. -/
theorem total_candidates_is_prefilter_count (env : Env) (user_tags : List String)
    (now_month : Fin 12) (candidates_raw : List RawCandidate) :
    (∀ resp, get_recommendations env user_tags now_month candidates_raw = some resp →
      resp.total_candidates = candidates_raw.length) ∧
    ((∀ c ∈ candidates_raw,
        c.place.safety_metadata.road_access = RoadAccessLevel.boat_only) →
      get_recommendations env user_tags now_month candidates_raw
        = some { results := [],
                 total_candidates := candidates_raw.length,
                 warnings := [] }) := by
  constructor
  · intro resp hok
    rcases get_recommendations_eq_some hok with ⟨v, -, -, rfl⟩
    rfl
  · intro hall
    have hfm : candidates_raw.filterMap (phase2Entry user_tags now_month) = [] := by
      rw [List.filterMap_eq_nil_iff]
      intro c hc
      simp [phase2Entry, hall c hc, INACCESSIBLE_ROAD]
    simp [get_recommendations, phase3Scored, scoredPhase2, hfm,
      sortDescByScore, validateList]

/-- C6: a place with `road_access = boat_only` never appears in the
results of any returned envelope, whatever its tags, history, or
percentile. -/
theorem boat_only_never_in_results (env : Env) (user_tags : List String)
    (now_month : Fin 12) (candidates_raw : List RawCandidate)
    (resp : RecommendationResponse)
    (hok : get_recommendations env user_tags now_month candidates_raw = some resp) :
    ∀ r ∈ resp.results,
      r.place.safety_metadata.road_access ≠ RoadAccessLevel.boat_only := by
  rcases get_recommendations_eq_some hok with ⟨v, hph, hfin, rfl⟩
  intro r hr
  simp only [List.mem_map] at hr
  rcases hr with ⟨e, he, rfl⟩
  rcases mem_finalScored hfin he with ⟨-, e₀, he₀, hcase⟩
  rcases mem_scoredPhase2 he₀ with ⟨c, -, h2⟩
  rcases phase2Entry_eq_some h2 with ⟨hplace, -, -, -, -, hroad, -⟩
  have hpl : e.place = c.place := by
    rcases hcase with rfl | ⟨w, r2, hr2, rfl⟩
    · exact hplace
    · rw [(validateEntry_some_frame hr2).1, hplace]
  show e.place.safety_metadata.road_access ≠ RoadAccessLevel.boat_only
  rw [hpl]
  simpa [INACCESSIBLE_ROAD] using hroad

/-- C7: with an absent/blank API credential the circuit breaker trips
before any network call: the whole response is independent of the live
provider's behavior (two environments differing only in `live` produce
identical outcomes), an envelope is always returned (no validation step
can raise), and every validated top-K entry takes the fallback path
(`weather_fallback = true`). -/
theorem blank_key_provider_independent (env₁ env₂ : Env) (user_tags : List String)
    (now_month : Fin 12) (candidates_raw : List RawCandidate)
    (hkey : env₁.WEATHERAPI_API_KEY = env₂.WEATHERAPI_API_KEY)
    (hblank : env₁.WEATHERAPI_API_KEY = "" ∨ isBlank env₁.WEATHERAPI_API_KEY = true) :
    get_recommendations env₁ user_tags now_month candidates_raw
      = get_recommendations env₂ user_tags now_month candidates_raw ∧
    (get_recommendations env₁ user_tags now_month candidates_raw).isSome = true ∧
    ∀ v, validateList env₁ user_tags now_month
        ((scoredPhase2 user_tags now_month candidates_raw).take
          (min 5 (scoredPhase2 user_tags now_month candidates_raw).length)) []
        = some v →
      ∀ e ∈ v.1, e.weather_fallback = true := by
  have hf1 : ∀ lat lon, fetch_live_weather env₁ lat lon = none := by
    intro lat lon
    unfold fetch_live_weather
    rw [if_pos hblank]
  have hf2 : ∀ lat lon, fetch_live_weather env₂ lat lon = none := by
    intro lat lon
    unfold fetch_live_weather
    rw [if_pos (by rw [← hkey]; exact hblank)]
  have hve : ∀ e w, validateEntry env₁ user_tags now_month e w
      = validateEntry env₂ user_tags now_month e w := by
    intro e w
    simp only [validateEntry, hf1, hf2]
  have hvl : ∀ l w, validateList env₁ user_tags now_month l w
      = validateList env₂ user_tags now_month l w := by
    intro l
    induction l with
    | nil => intro w; rfl
    | cons e rest ih => intro w; simp only [validateList, hve, ih]
  have hph : ∀ s, phase3Scored env₁ user_tags now_month s
      = phase3Scored env₂ user_tags now_month s := by
    intro s
    simp only [phase3Scored, hvl]
  refine ⟨?_, ?_, ?_⟩
  · simp only [get_recommendations, hph]
  · obtain ⟨v, hv⟩ := @validateList_isSome env₁ user_tags now_month
      (fun e w => ⟨_, validateEntry_of_fetch_none (hf1 _ _)⟩)
      ((scoredPhase2 user_tags now_month candidates_raw).take
        (min 5 (scoredPhase2 user_tags now_month candidates_raw).length)) []
    have hp : phase3Scored env₁ user_tags now_month
        (scoredPhase2 user_tags now_month candidates_raw)
        = some (v.1 ++ (scoredPhase2 user_tags now_month candidates_raw).drop
            (min 5 (scoredPhase2 user_tags now_month candidates_raw).length), v.2) := by
      simp only [phase3Scored, hv]
    simp only [get_recommendations, hp]
    rfl
  · intro v hv e he
    rcases mem_validateList_some hv he with ⟨e₀, he₀, w2, r, hr, rfl⟩
    exact validateEntry_some_fallback_of_none (hf1 _ _) hr

/-- C8 (code bug at lines 109/114): a malformed body of the *caught*
kind (`KeyError`/`TypeError`) is indeed a silent neutral `0.5` and the
request proceeds — but a successfully fetched body whose
`current.condition.text` exists and is not a string (e.g. `null`) raises
`AttributeError` at `.lower()` (line 109), which the
`except (KeyError, TypeError)` clause (line 114) does not catch: the
exception propagates out of `get_recommendations` and the request
aborts with no envelope, contradicting the claim's (and spec §7's)
"the request does not fail". -/
theorem nonstring_condition_text_aborts_request :
    comfort_from_weather WeatherData.malformed = some 0.5 ∧
    comfort_from_weather (WeatherData.nonStringCondition 20) = none ∧
    (get_recommendations envMal [] monthMay [candA]).isSome = true ∧
    get_recommendations envAttr [] monthMay [candA] = none := by
  refine ⟨rfl, rfl, ?_, ?_⟩
  · simp only [get_recommendations, s2A, phase3Scored_Mal]
    rfl
  · simp only [get_recommendations, s2A, phase3Scored_Attr]

/-- C9: the vibe score is exactly the Jaccard similarity of the
lower-cased tag sets, is `0` whenever either tag list is empty, and on
`{nature, trekking}` vs `{nature, beach}` equals `1/3`. -/
theorem vibe_score_is_jaccard (u p : List String) :
    vibe_score u p = jaccardLower u p ∧
    ((u = [] ∨ p = []) → vibe_score u p = 0) ∧
    vibe_score ["nature", "trekking"] ["nature", "beach"] = 1 / 3 := by
  refine ⟨?_, ?_, ?_⟩
  · by_cases hup : u = [] ∨ p = []
    · rcases hup with rfl | rfl
      · simp [vibe_score, jaccardLower, lowerTagSet]
      · simp [vibe_score, jaccardLower, lowerTagSet]
    · push_neg at hup
      have hne : lowerTagSet u ∪ lowerTagSet p ≠ ∅ := by
        intro hemp
        rcases u with - | ⟨t, ts⟩
        · exact hup.1 rfl
        · have hmt : strLower t ∈ lowerTagSet (t :: ts) := by
            simp [lowerTagSet]
          have hmu : strLower t ∈ lowerTagSet (t :: ts) ∪ lowerTagSet p :=
            Finset.mem_union_left _ hmt
          rw [hemp] at hmu
          simp at hmu
      simp only [vibe_score, jaccardLower]
      rw [if_neg (not_or.mpr hup), if_pos hne]
  · rintro (rfl | rfl) <;> simp [vibe_score]
  · have h1 : (lowerTagSet ["nature", "trekking"] ∩ lowerTagSet ["nature", "beach"]).card
        = 1 := by decide
    have h2 : (lowerTagSet ["nature", "trekking"] ∪ lowerTagSet ["nature", "beach"]).card
        = 3 := by decide
    have hne : lowerTagSet ["nature", "trekking"] ∪ lowerTagSet ["nature", "beach"] ≠ ∅ := by
      decide
    simp only [vibe_score]
    rw [if_neg (by decide), if_pos hne, h1, h2]
    norm_num

/-- C10: a top-K entry whose live fetch fails keeps its phase-2 score
exactly: the fallback comfort is the same current-month historical value
already used (and checked against the 0.4 floor) in phase 2 — hence the
`MIN_COMFORT_SCORE ≤ e.weather_comfort` conjunct says the entry is never
zeroed — and the identical formula and rounding reproduce the stored
score; the validation step succeeds and only marks
`weather_fallback = true`. -/
theorem fallback_recompute_keeps_phase2_score (env : Env) (user_tags : List String)
    (now_month : Fin 12) (c : RawCandidate) (e : ScoredEntry) (w : List String)
    (h2 : phase2Entry user_tags now_month c = some e)
    (hfail : fetch_live_weather env e.place.location.coordinates.2
      e.place.location.coordinates.1 = none) :
    (∃ w2, validateEntry env user_tags now_month e w
        = some ({ e with weather_fallback := true }, w2)) ∧
    MIN_COMFORT_SCORE ≤ e.weather_comfort := by
  rcases phase2Entry_eq_some h2 with ⟨hplace, hfb, hcomf_eq, hcomf_ge, hdist, hroad, hscore⟩
  refine ⟨?_, hcomf_ge⟩
  cases e with
  | mk pl sc dm wf wc =>
      dsimp only at hplace hfb hcomf_eq hcomf_ge hdist hscore hfail ⊢
      subst hplace
      subst hcomf_eq
      subst hscore
      subst hfb
      have hnotlt : ¬ (current_month_comfort c.place.metrics.weather_comfort_history now_month
          < MIN_COMFORT_SCORE) := not_lt.mpr hcomf_ge
      refine ⟨(if "Live weather unavailable" ∈ w then w
          else w ++ ["Live weather unavailable — using historical comfort data for some results"]), ?_⟩
      simp only [validateEntry, hfail, validateWithComfort, if_neg hnotlt]

/-! ## Witnesses: the claims instantiated on the concrete fixtures -/

/-- Witness for the sortedness/nonnegativity claim at a concrete request. -/
theorem results_sorted_desc_and_nonneg_witness :
    List.Pairwise (fun a b => b.score ≤ a.score) respA.results ∧
    ∀ r ∈ respA.results, 0 ≤ r.score ∧ 0 ≤ r.dist_meters :=
  results_sorted_desc_and_nonneg envBlank1 [] monthMay [candA] respA
    get_recommendations_A (by
      intro c hc
      rw [List.mem_singleton] at hc
      subst hc
      norm_num [candA])

/-- Witness for the comfort-floor claim at a concrete surviving entry. -/
theorem low_comfort_never_in_results_witness :
    MIN_COMFORT_SCORE ≤ entryA2.weather_comfort :=
  low_comfort_never_in_results envBlank1 [] monthMay [candA] [entryA2]
    finalScored_A entryA2 (List.mem_singleton_self _)

/-- Witness for the top-K frame claim at a concrete request. -/
theorem topK_validation_frame_witness :
    ([entryA2] : List ScoredEntry).length
      = min 5 (scoredPhase2 [] monthMay [candA]).length ∧
    ([entryA2] : List ScoredEntry).drop 5
      = (scoredPhase2 [] monthMay [candA]).drop 5 ∧
    entryA.weather_fallback = false := by
  obtain ⟨h1, h2, h3⟩ := topK_validation_frame envBlank1 [] monthMay [candA]
  have hv : validateList envBlank1 [] monthMay
      ((scoredPhase2 [] monthMay [candA]).take
        (min 5 (scoredPhase2 [] monthMay [candA]).length)) []
      = some ([entryA2], [warnMsg]) := by
    rw [s2A]
    rw [show List.length [entryA] = 1 from rfl, min_eq_right (show 1 ≤ 5 by norm_num)]
    rw [show List.take 1 [entryA] = [entryA] from rfl]
    exact validateList_A
  have hp : phase3Scored envBlank1 [] monthMay (scoredPhase2 [] monthMay [candA])
      = some ([entryA2], [warnMsg]) := by
    rw [s2A]
    exact phase3Scored_A
  exact ⟨h1 ([entryA2], [warnMsg]) hv, h2 ([entryA2], [warnMsg]) hp,
    h3 entryA (by rw [s2A]; exact List.mem_singleton_self _)⟩

/-- Witness for the pre-filter count claim: one boat-only candidate. -/
theorem total_candidates_is_prefilter_count_witness :
    ({ results := [], total_candidates := 1, warnings := [] }
        : RecommendationResponse).total_candidates = 1 ∧
    get_recommendations envBlank1 [] monthMay [candBoat]
      = some { results := [], total_candidates := 1, warnings := [] } := by
  obtain ⟨h1, h2⟩ := total_candidates_is_prefilter_count envBlank1 [] monthMay [candBoat]
  have hall : ∀ c ∈ [candBoat],
      c.place.safety_metadata.road_access = RoadAccessLevel.boat_only := by
    intro c hc
    rw [List.mem_singleton] at hc
    subst hc
    rfl
  exact ⟨h1 _ (h2 hall), h2 hall⟩

/-- Witness for the boat-only exclusion claim at a concrete result. -/
theorem boat_only_never_in_results_witness :
    resultA.place.safety_metadata.road_access ≠ RoadAccessLevel.boat_only :=
  boat_only_never_in_results envBlank1 [] monthMay [candA] respA
    get_recommendations_A resultA (List.mem_singleton_self _)

/-- Witness for the blank-credential hyperproperty at two concrete
environments differing only in the provider's behavior. -/
theorem blank_key_provider_independent_witness :
    get_recommendations envBlank1 [] monthMay [candA]
      = get_recommendations envBlank2 [] monthMay [candA] ∧
    (get_recommendations envBlank1 [] monthMay [candA]).isSome = true ∧
    entryA2.weather_fallback = true := by
  obtain ⟨h1, h2, h3⟩ := blank_key_provider_independent envBlank1 envBlank2 [] monthMay
    [candA] rfl (Or.inl rfl)
  refine ⟨h1, h2, h3 ([entryA2], [warnMsg]) ?_ entryA2 (List.mem_singleton_self _)⟩
  rw [s2A]
  rw [show List.length [entryA] = 1 from rfl, min_eq_right (show 1 ≤ 5 by norm_num)]
  rw [show List.take 1 [entryA] = [entryA] from rfl]
  exact validateList_A

/-- Witness for the vibe-score claim, including the empty-list case. -/
theorem vibe_score_is_jaccard_witness :
    vibe_score [] ["nature"] = jaccardLower [] ["nature"] ∧
    vibe_score [] ["nature"] = 0 ∧
    vibe_score ["nature", "trekking"] ["nature", "beach"] = 1 / 3 := by
  obtain ⟨h1, h2, h3⟩ := vibe_score_is_jaccard [] ["nature"]
  exact ⟨h1, h2 (Or.inl rfl), h3⟩

/-- Witness for the fallback-keeps-score claim at a concrete failed fetch. -/
theorem fallback_recompute_keeps_phase2_score_witness :
    (∃ w2, validateEntry envBlank1 [] monthMay entryA []
        = some ({ entryA with weather_fallback := true }, w2)) ∧
    MIN_COMFORT_SCORE ≤ entryA.weather_comfort :=
  fallback_recompute_keeps_phase2_score envBlank1 [] monthMay candA entryA []
    phase2_candA (by decide)

end Watrs
